import Mathlib

/-!
Verification of the SportsWorldCentral (SWC) fantasy-football read-only API.

Sources: `src/chapter5/main.py` (HTTP layer), `src/chapter3/database.py`
(storage session factory), `src/chapter5/test_crud.py` (fixture facts).
The query layer `crud.py` and the response schemas `schemas.py` are imported
by `main.py` but their sources are not part of this tree, so the query
functions are modelled from the specification (section 4.1 of the spec);
their definitions below carry a doc comment saying so.

Embedding conventions: Python `int` is `Int`; a `datetime.date` is an `Int`
(ordinal day, so date comparison is integer comparison); a Python value that
may be `None` is an `Option`; a handler that may `raise HTTPException` is an
`Except HTTPException` result; the database is an explicit record of row
lists threaded through every operation.
-/

/-- A Player row: identifier, first name, last name, last-changed date
(spec section 3, `schemas.Player`). -/
structure Player where
  player_id : Int
  first_name : String
  last_name : String
  last_changed_date : Int
deriving Repr, DecidableEq

/-- A League row: identifier, name, last-changed date (spec section 3). -/
structure League where
  league_id : Int
  league_name : String
  last_changed_date : Int
deriving Repr, DecidableEq

/-- A Team row: identifier, name, owning league identifier, last-changed
date (spec section 3). -/
structure Team where
  team_id : Int
  team_name : String
  league_id : Int
  last_changed_date : Int
deriving Repr, DecidableEq

/-- A Performance row: identifier, player identifier, week context, fantasy
score, last-changed date (spec section 3). The score is kept abstract as an
integer; no claim depends on it. -/
structure Performance where
  performance_id : Int
  player_id : Int
  week_number : String
  fantasy_points : Int
  last_changed_date : Int
deriving Repr, DecidableEq

/-- The relational store: four tables matching the data model
(spec section 6, `fantasy_data.db`). -/
structure DB where
  players : List Player
  leagues : List League
  teams : List Team
  performances : List Performance
deriving Repr, DecidableEq

/-- Modelled from the spec: the common list-query contract of the query
layer (spec section 4.1, `crud.py` is not in the tree). Rows are ordered by
primary identifier ascending (stable sort), the filter predicate is applied,
`skip` rows are discarded from the front, then up to `limit` rows are
returned. Negative `skip` or `limit` values are clamped to zero by `toNat`,
a modelling choice for out-of-contract inputs. -/
def listQuery (key : α → Int) (pred : α → Bool) (rows : List α)
    (skip limit : Int) : List α :=
  (((rows.mergeSort (fun a b => decide (key a ≤ key b))).filter pred).drop
    skip.toNat).take limit.toNat

/-- Modelled from the spec: the filter conjunction of `crud.get_players` —
optional minimum last-changed date (inclusive), optional first-name and
last-name equality, combined with logical AND; an omitted filter imposes no
constraint (spec section 4.1). -/
def playerMatches (min_last_changed_date : Option Int)
    (first_name last_name : Option String) (p : Player) : Bool :=
  (match min_last_changed_date with
   | none => true
   | some d => decide (d ≤ p.last_changed_date)) &&
  (match first_name with
   | none => true
   | some s => p.first_name == s) &&
  (match last_name with
   | none => true
   | some s => p.last_name == s)

/-- Modelled from the spec: the filter conjunction of `crud.get_performances`
— optional minimum last-changed date only (spec section 4.1). -/
def performanceMatches (min_last_changed_date : Option Int)
    (f : Performance) : Bool :=
  match min_last_changed_date with
  | none => true
  | some d => decide (d ≤ f.last_changed_date)

/-- Modelled from the spec: the filter conjunction of `crud.get_leagues` —
optional minimum last-changed date and optional league-name equality
(spec section 4.1). -/
def leagueMatches (min_last_changed_date : Option Int)
    (league_name : Option String) (l : League) : Bool :=
  (match min_last_changed_date with
   | none => true
   | some d => decide (d ≤ l.last_changed_date)) &&
  (match league_name with
   | none => true
   | some s => l.league_name == s)

/-- Modelled from the spec: the filter conjunction of `crud.get_teams` —
optional minimum last-changed date, optional team-name equality, optional
league-identifier equality (spec section 4.1). -/
def teamMatches (min_last_changed_date : Option Int)
    (team_name : Option String) (league_id : Option Int) (t : Team) : Bool :=
  (match min_last_changed_date with
   | none => true
   | some d => decide (d ≤ t.last_changed_date)) &&
  (match team_name with
   | none => true
   | some s => t.team_name == s) &&
  (match league_id with
   | none => true
   | some i => t.league_id == i)

/-- Modelled from the spec: `crud.get_players` (spec section 4.1). -/
def get_players (db : DB) (min_last_changed_date : Option Int)
    (first_name last_name : Option String) (skip limit : Int) : List Player :=
  listQuery (fun p => p.player_id)
    (playerMatches min_last_changed_date first_name last_name)
    db.players skip limit

/-- Modelled from the spec: `crud.get_performances` (spec section 4.1). -/
def get_performances (db : DB) (min_last_changed_date : Option Int)
    (skip limit : Int) : List Performance :=
  listQuery (fun f => f.performance_id)
    (performanceMatches min_last_changed_date)
    db.performances skip limit

/-- Modelled from the spec: `crud.get_leagues` (spec section 4.1). -/
def get_leagues (db : DB) (min_last_changed_date : Option Int)
    (league_name : Option String) (skip limit : Int) : List League :=
  listQuery (fun l => l.league_id)
    (leagueMatches min_last_changed_date league_name)
    db.leagues skip limit

/-- Modelled from the spec: `crud.get_teams` (spec section 4.1). -/
def get_teams (db : DB) (min_last_changed_date : Option Int)
    (team_name : Option String) (league_id : Option Int)
    (skip limit : Int) : List Team :=
  listQuery (fun t => t.team_id)
    (teamMatches min_last_changed_date team_name league_id)
    db.teams skip limit

/-- Modelled from the spec: `crud.get_player` — single-entity lookup by
identifier, returning the matching entity or an explicit not-found signal
(spec section 4.1). -/
def get_player (db : DB) (player_id : Int) : Option Player :=
  db.players.find? (fun p => p.player_id == player_id)

/-- Modelled from the spec: `crud.get_league` — single-entity lookup by
identifier (spec section 4.1). -/
def get_league (db : DB) (league_id : Int) : Option League :=
  db.leagues.find? (fun l => l.league_id == league_id)

/-- Modelled from the spec: `crud.get_player_count` — total number of player
rows, no filtering (spec section 4.1). -/
def get_player_count (db : DB) : Nat :=
  db.players.length

/-- Modelled from the spec: `crud.get_team_count` (spec section 4.1). -/
def get_team_count (db : DB) : Nat :=
  db.teams.length

/-- Modelled from the spec: `crud.get_league_count` (spec section 4.1). -/
def get_league_count (db : DB) : Nat :=
  db.leagues.length

/-- An HTTP error raised by a handler, as in FastAPI: a status code and a
detail message (`main.py` raises `HTTPException(status_code=404, ...)`). -/
structure HTTPException where
  status_code : Nat
  detail : String
deriving Repr, DecidableEq

/-- The HTTP status of a handler outcome: a normal return is serialized by
the framework with status 200, a raised `HTTPException` carries its own
status code. -/
def statusOf : Except HTTPException α → Nat
  | Except.ok _ => 200
  | Except.error e => e.status_code

/-- The `schemas.Counts` response body of `/v0/counts`
(`main.py` lines 164-169). -/
structure Counts where
  league_count : Nat
  team_count : Nat
  player_count : Nat
deriving Repr, DecidableEq

/-- The `/` health-check endpoint (`main.py` lines 46-47). -/
def root : String :=
  "API health check successful"

/-- The `/v0/players/` endpoint `read_players` (`main.py` lines 56-69):
parsed parameters are passed to `crud.get_players` unchanged. -/
def read_players (db : DB) (skip limit : Int)
    (minimum_last_changed_date : Option Int)
    (first_name last_name : Option String) : List Player :=
  get_players db minimum_last_changed_date first_name last_name skip limit

/-- The `/v0/players/{player_id}` endpoint `read_player`
(`main.py` lines 78-84): a `None` from the query layer becomes a raised
`HTTPException(404, "Player not found")`, otherwise the player is returned. -/
def read_player (db : DB) (player_id : Int) : Except HTTPException Player :=
  match get_player db player_id with
  | none => Except.error ⟨404, "Player not found"⟩
  | some player => Except.ok player

/-- The `/v0/performances/` endpoint `read_performances`
(`main.py` lines 93-101). -/
def read_performances (db : DB) (skip limit : Int)
    (minimum_last_changed_date : Option Int) : List Performance :=
  get_performances db minimum_last_changed_date skip limit

/-- The `/v0/leagues/{league_id}` endpoint `read_league`
(`main.py` lines 110-115): a `None` becomes a raised
`HTTPException(404, "League not found")`. -/
def read_league (db : DB) (league_id : Int) : Except HTTPException League :=
  match get_league db league_id with
  | none => Except.error ⟨404, "League not found"⟩
  | some league => Except.ok league

/-- The `/v0/leagues` endpoint `read_leagues` (`main.py` lines 124-134). -/
def read_leagues (db : DB) (skip limit : Int)
    (minimum_last_changed_date : Option Int)
    (league_name : Option String) : List League :=
  get_leagues db minimum_last_changed_date league_name skip limit

/-- The `/v0/teams/` endpoint `read_teams` (`main.py` lines 143-155). -/
def read_teams (db : DB) (skip limit : Int)
    (minimum_last_changed_date : Option Int)
    (team_name : Option String) (league_id : Option Int) : List Team :=
  get_teams db minimum_last_changed_date team_name league_id skip limit

/-- The `/v0/counts` endpoint `get_count` (`main.py` lines 164-169). -/
def get_count (db : DB) : Counts :=
  ⟨get_league_count db, get_team_count db, get_player_count db⟩

/-- One parsed GET request, one constructor per route of `main.py`. -/
inductive Request where
  | health
  | players (skip limit : Int) (minimum_last_changed_date : Option Int)
      (first_name last_name : Option String)
  | playerById (player_id : Int)
  | performances (skip limit : Int) (minimum_last_changed_date : Option Int)
  | leagueById (league_id : Int)
  | leagues (skip limit : Int) (minimum_last_changed_date : Option Int)
      (league_name : Option String)
  | teams (skip limit : Int) (minimum_last_changed_date : Option Int)
      (team_name : Option String) (league_id : Option Int)
  | counts
deriving Repr, DecidableEq

/-- A successful JSON response body, one constructor per response model. -/
inductive ResponseBody where
  | message (text : String)
  | playerList (rows : List Player)
  | onePlayer (row : Player)
  | performanceList (rows : List Performance)
  | leagueList (rows : List League)
  | oneLeague (row : League)
  | teamList (rows : List Team)
  | countsBody (c : Counts)
deriving Repr, DecidableEq

/-- Dispatch one request to its handler (the routing table of `main.py`),
with the database state threaded explicitly: the handler produces an outcome
and the database state after the request. -/
def handle (req : Request) (db : DB) : Except HTTPException ResponseBody × DB :=
  match req with
  | Request.health => (Except.ok (ResponseBody.message root), db)
  | Request.players skip limit md fn ln =>
      (Except.ok (ResponseBody.playerList (read_players db skip limit md fn ln)), db)
  | Request.playerById pid =>
      ((read_player db pid).map ResponseBody.onePlayer, db)
  | Request.performances skip limit md =>
      (Except.ok (ResponseBody.performanceList (read_performances db skip limit md)), db)
  | Request.leagueById lgid =>
      ((read_league db lgid).map ResponseBody.oneLeague, db)
  | Request.leagues skip limit md lname =>
      (Except.ok (ResponseBody.leagueList (read_leagues db skip limit md lname)), db)
  | Request.teams skip limit md tname lid =>
      (Except.ok (ResponseBody.teamList (read_teams db skip limit md tname lid)), db)
  | Request.counts =>
      (Except.ok (ResponseBody.countsBody (get_count db)), db)

/-- A FastAPI integer query-parameter declaration: a default value and the
optional range validators FastAPI supports (`ge`, `le`, `gt`, `lt`).
Validation rejects an out-of-range value with a 422 before the handler
runs; a declaration without validators accepts every integer. -/
structure QueryInt where
  defaultValue : Int
  ge : Option Int
  le : Option Int
  gt : Option Int
  lt : Option Int
deriving Repr, DecidableEq

/-- Validate a supplied integer against a query-parameter declaration, as
FastAPI does before calling the handler. -/
def QueryInt.validate (q : QueryInt) (x : Int) : Except HTTPException Int :=
  if (q.ge.all fun b => decide (b ≤ x)) && (q.le.all fun b => decide (x ≤ b)) &&
     (q.gt.all fun b => decide (b < x)) && (q.lt.all fun b => decide (x < b))
  then Except.ok x
  else Except.error ⟨422, "Input validation error"⟩

/-- The `skip` declaration of the list endpoints (`main.py` line 56 and
analogues): `Query(0, description=...)` — a default of 0 and no range
validators. -/
def skipQuery : QueryInt :=
  ⟨0, none, none, none, none⟩

/-- The `limit` declaration of the list endpoints (`main.py` line 57 and
analogues): `Query(100, description=...)` — a default of 100 and no range
validators. -/
def limitQuery : QueryInt :=
  ⟨100, none, none, none, none⟩

/-- The pool of storage sessions of one process: a counter producing fresh
session identifiers and the identifiers currently open. -/
structure SessionState where
  next_id : Nat
  open_sessions : List Nat
deriving Repr, DecidableEq

/-- A call to the `SessionLocal` session factory
(`chapter3/database.py` line 11): a fresh session is created and recorded
as open. -/
def SessionLocal (st : SessionState) : Nat × SessionState :=
  (st.next_id, ⟨st.next_id + 1, st.next_id :: st.open_sessions⟩)

/-- Closing a session (`db.close()`): it is removed from the open set. -/
def closeSession (s : Nat) (st : SessionState) : SessionState :=
  ⟨st.next_id, st.open_sessions.erase s⟩

/-- The `get_db` dependency (`main.py` lines 33-38): acquire one session
from `SessionLocal`, run the request body with it, and close it in a
`finally` block — the close happens whether the body returns normally or
raises. -/
def get_db (handler : Nat → Except HTTPException α) (st : SessionState) :
    Except HTTPException α × SessionState :=
  let acquired := SessionLocal st
  let result := handler acquired.1
  (result, closeSession acquired.1 acquired.2)

/-- A two-player demonstration database used to instantiate theorems with
hypotheses at concrete inputs. -/
def demoAlan : Player :=
  ⟨1001, "Alan", "Adams", 738900⟩

/-- The fixture fact behind `test_get_players_by_name`: player 2009 is the
only Bryce Young. -/
def demoBryce : Player :=
  ⟨2009, "Bryce", "Young", 738981⟩

/-- A small concrete database consistent with spec section 8's fixture
facts that the claims below reference. -/
def demoDB : DB :=
  ⟨[demoAlan, demoBryce],
   [⟨5001, "Pigskin Prodigal Fantasy League", 738900⟩],
   [⟨6001, "Team One", 5001, 738900⟩, ⟨6002, "Team Two", 5001, 738981⟩],
   [⟨7001, 2009, "1", 125, 738981⟩]⟩

theorem listQuery_length_le (key : α → Int) (pred : α → Bool) (rows : List α)
    (skip limit : Int) :
    (listQuery key pred rows skip limit).length ≤ limit.toNat := by
  unfold listQuery
  rw [List.length_take]
  exact inf_le_left

theorem listQuery_full_eq (key : α → Int) (pred : α → Bool) (rows : List α)
    (L : Int) (hL : rows.length ≤ L.toNat) :
    listQuery key pred rows 0 L =
      (rows.mergeSort (fun a b => decide (key a ≤ key b))).filter pred := by
  unfold listQuery
  rw [Int.toNat_zero, List.drop_zero, List.take_of_length_le]
  calc (List.filter pred (rows.mergeSort (fun a b => decide (key a ≤ key b)))).length
      ≤ (rows.mergeSort (fun a b => decide (key a ≤ key b))).length :=
        List.length_filter_le _ _
    _ = rows.length := (List.mergeSort_perm rows _).length_eq
    _ ≤ L.toNat := hL

theorem listQuery_window (key : α → Int) (pred : α → Bool) (rows : List α)
    (skip limit L : Int) (hL : rows.length ≤ L.toNat) :
    listQuery key pred rows skip limit =
      ((listQuery key pred rows 0 L).drop skip.toNat).take limit.toNat := by
  rw [listQuery_full_eq key pred rows L hL]
  rfl

theorem listQuery_of_no_match (key : α → Int) (pred : α → Bool) (rows : List α)
    (skip limit : Int) (h : ∀ a ∈ rows, pred a = false) :
    listQuery key pred rows skip limit = [] := by
  unfold listQuery
  have hf : (rows.mergeSort (fun a b => decide (key a ≤ key b))).filter pred = [] :=
    List.filter_eq_nil_iff.mpr (fun a ha => by
      have hm := h a ((List.mergeSort_perm rows _).mem_iff.mp ha)
      simp [hm])
  rw [hf]
  simp

theorem listQuery_mem (key : α → Int) (pred : α → Bool) (rows : List α)
    (skip limit : Int) (a : α) (ha : a ∈ listQuery key pred rows skip limit) :
    a ∈ rows ∧ pred a = true := by
  unfold listQuery at ha
  have h1 : a ∈ (rows.mergeSort (fun a b => decide (key a ≤ key b))).filter pred :=
    ((List.take_sublist _ _).trans (List.drop_sublist _ _)).subset ha
  have h2 := List.mem_filter.mp h1
  exact ⟨(List.mergeSort_perm rows _).mem_iff.mp h2.1, h2.2⟩

theorem listQuery_full_mem (key : α → Int) (pred : α → Bool) (rows : List α)
    (L : Int) (hL : rows.length ≤ L.toNat) (a : α) :
    a ∈ listQuery key pred rows 0 L ↔ a ∈ rows ∧ pred a = true := by
  rw [listQuery_full_eq key pred rows L hL, List.mem_filter,
    (List.mergeSort_perm rows _).mem_iff]

theorem mergeSort_pairwise_key (key : α → Int) (rows : List α) :
    (rows.mergeSort (fun a b => decide (key a ≤ key b))).Pairwise
      (fun a b => key a ≤ key b) := by
  have h := @List.sorted_mergeSort α (fun a b => decide (key a ≤ key b))
    (fun a b c hab hbc => by
      simp only [decide_eq_true_eq] at hab hbc ⊢
      omega)
    (fun a b => by
      simp only [Bool.or_eq_true, decide_eq_true_eq]
      omega)
    rows
  exact h.imp (fun hab => by simpa using hab)

theorem listQuery_sublist_mergeSort (key : α → Int) (pred : α → Bool)
    (rows : List α) (skip limit : Int) :
    (listQuery key pred rows skip limit).Sublist
      (rows.mergeSort (fun a b => decide (key a ≤ key b))) := by
  unfold listQuery
  exact ((List.take_sublist _ _).trans (List.drop_sublist _ _)).trans
    (List.filter_sublist _)

theorem listQuery_pairwise_le (key : α → Int) (pred : α → Bool) (rows : List α)
    (skip limit : Int) :
    (listQuery key pred rows skip limit).Pairwise (fun a b => key a ≤ key b) :=
  List.Pairwise.sublist (listQuery_sublist_mergeSort key pred rows skip limit)
    (mergeSort_pairwise_key key rows)

theorem listQuery_pairwise_lt (key : α → Int) (pred : α → Bool) (rows : List α)
    (skip limit : Int) (hnd : (rows.map key).Nodup) :
    (listQuery key pred rows skip limit).Pairwise (fun a b => key a < key b) := by
  have hle := listQuery_pairwise_le key pred rows skip limit
  have hnd2 : ((rows.mergeSort (fun a b => decide (key a ≤ key b))).map key).Nodup :=
    ((List.mergeSort_perm rows _).map key).nodup_iff.mpr hnd
  have hnd3 : ((listQuery key pred rows skip limit).map key).Nodup :=
    hnd2.sublist ((listQuery_sublist_mergeSort key pred rows skip limit).map key)
  have hne : (listQuery key pred rows skip limit).Pairwise
      (fun a b => key a ≠ key b) := by
    simpa [List.Nodup, List.pairwise_map] using hnd3
  exact (hle.and hne).imp (fun h => lt_of_le_of_ne h.1 h.2)

theorem listQuery_all_true_eq (key : α → Int) (pred : α → Bool) (rows : List α)
    (L : Int) (hL : rows.length ≤ L.toNat) (hpred : ∀ a, pred a = true) :
    listQuery key pred rows 0 L =
      rows.mergeSort (fun a b => decide (key a ≤ key b)) := by
  rw [listQuery_full_eq key pred rows L hL]
  exact List.filter_eq_self.mpr (fun a _ => hpred a)

theorem playerMatches_iff (md : Option Int) (fn ln : Option String) (p : Player) :
    playerMatches md fn ln p = true ↔
      (∀ d ∈ md, d ≤ p.last_changed_date) ∧
      (∀ s ∈ fn, p.first_name = s) ∧ (∀ s ∈ ln, p.last_name = s) := by
  cases md <;> cases fn <;> cases ln <;> simp [playerMatches, and_assoc]

theorem performanceMatches_iff (md : Option Int) (f : Performance) :
    performanceMatches md f = true ↔ (∀ d ∈ md, d ≤ f.last_changed_date) := by
  cases md <;> simp [performanceMatches]

theorem leagueMatches_iff (md : Option Int) (lname : Option String) (l : League) :
    leagueMatches md lname l = true ↔
      (∀ d ∈ md, d ≤ l.last_changed_date) ∧ (∀ s ∈ lname, l.league_name = s) := by
  cases md <;> cases lname <;> simp [leagueMatches]

theorem teamMatches_iff (md : Option Int) (tname : Option String)
    (lid : Option Int) (t : Team) :
    teamMatches md tname lid t = true ↔
      (∀ d ∈ md, d ≤ t.last_changed_date) ∧
      (∀ s ∈ tname, t.team_name = s) ∧ (∀ i ∈ lid, t.league_id = i) := by
  cases md <;> cases tname <;> cases lid <;> simp [teamMatches, and_assoc]

/-- C1: for every list operation (players, performances, leagues, teams),
the returned sequence has length at most `limit`, equals the window obtained
by discarding the first `skip` rows of the matching set (the unpaginated
call) and taking up to `limit` rows, and when nothing matches the result is
the empty list rather than an error. -/
theorem claim_C1_pagination (db : DB) (md : Option Int)
    (fn ln lname tname : Option String) (lid : Option Int)
    (skip limit L : Int)
    (hP : db.players.length ≤ L.toNat)
    (hF : db.performances.length ≤ L.toNat)
    (hLg : db.leagues.length ≤ L.toNat)
    (hT : db.teams.length ≤ L.toNat) :
    ((get_players db md fn ln skip limit).length ≤ limit.toNat
      ∧ get_players db md fn ln skip limit
          = ((get_players db md fn ln 0 L).drop skip.toNat).take limit.toNat
      ∧ ((∀ p ∈ db.players, playerMatches md fn ln p = false) →
          get_players db md fn ln skip limit = []))
    ∧ ((get_performances db md skip limit).length ≤ limit.toNat
      ∧ get_performances db md skip limit
          = ((get_performances db md 0 L).drop skip.toNat).take limit.toNat
      ∧ ((∀ f ∈ db.performances, performanceMatches md f = false) →
          get_performances db md skip limit = []))
    ∧ ((get_leagues db md lname skip limit).length ≤ limit.toNat
      ∧ get_leagues db md lname skip limit
          = ((get_leagues db md lname 0 L).drop skip.toNat).take limit.toNat
      ∧ ((∀ l ∈ db.leagues, leagueMatches md lname l = false) →
          get_leagues db md lname skip limit = []))
    ∧ ((get_teams db md tname lid skip limit).length ≤ limit.toNat
      ∧ get_teams db md tname lid skip limit
          = ((get_teams db md tname lid 0 L).drop skip.toNat).take limit.toNat
      ∧ ((∀ t ∈ db.teams, teamMatches md tname lid t = false) →
          get_teams db md tname lid skip limit = [])) := by
  refine ⟨⟨?_, ?_, ?_⟩, ⟨?_, ?_, ?_⟩, ⟨?_, ?_, ?_⟩, ⟨?_, ?_, ?_⟩⟩
  · exact listQuery_length_le _ _ _ _ _
  · exact listQuery_window _ _ _ _ _ L hP
  · exact fun h => listQuery_of_no_match _ _ _ _ _ h
  · exact listQuery_length_le _ _ _ _ _
  · exact listQuery_window _ _ _ _ _ L hF
  · exact fun h => listQuery_of_no_match _ _ _ _ _ h
  · exact listQuery_length_le _ _ _ _ _
  · exact listQuery_window _ _ _ _ _ L hLg
  · exact fun h => listQuery_of_no_match _ _ _ _ _ h
  · exact listQuery_length_le _ _ _ _ _
  · exact listQuery_window _ _ _ _ _ L hT
  · exact fun h => listQuery_of_no_match _ _ _ _ _ h

/-- Witness for C1: the pagination bound evaluated on the demonstration
database with skip 1 and limit 1. -/
theorem claim_C1_pagination_witness :
    (get_players demoDB none none none 1 1).length ≤ (1 : Int).toNat :=
  (claim_C1_pagination demoDB none none none none none none 1 1 10
    (by decide) (by decide) (by decide) (by decide)).1.1

/-- C2: in every list operation, a supplied minimum last-changed date bounds
every returned row inclusively, an omitted filter imposes no constraint, and
all supplied filters combine by logical AND — stated for every row of any
returned page, and as an exact membership characterisation of the full
window. -/
theorem claim_C2_filters (db : DB) (md : Option Int)
    (fn ln lname tname : Option String) (lid : Option Int)
    (skip limit L : Int)
    (hP : db.players.length ≤ L.toNat)
    (hF : db.performances.length ≤ L.toNat)
    (hLg : db.leagues.length ≤ L.toNat)
    (hT : db.teams.length ≤ L.toNat) :
    ((∀ p ∈ get_players db md fn ln skip limit,
        (∀ d ∈ md, d ≤ p.last_changed_date) ∧
        (∀ s ∈ fn, p.first_name = s) ∧ (∀ s ∈ ln, p.last_name = s))
      ∧ (∀ p, p ∈ get_players db md fn ln 0 L ↔
          p ∈ db.players ∧ (∀ d ∈ md, d ≤ p.last_changed_date) ∧
          (∀ s ∈ fn, p.first_name = s) ∧ (∀ s ∈ ln, p.last_name = s)))
    ∧ ((∀ f ∈ get_performances db md skip limit,
        ∀ d ∈ md, d ≤ f.last_changed_date)
      ∧ (∀ f, f ∈ get_performances db md 0 L ↔
          f ∈ db.performances ∧ ∀ d ∈ md, d ≤ f.last_changed_date))
    ∧ ((∀ l ∈ get_leagues db md lname skip limit,
        (∀ d ∈ md, d ≤ l.last_changed_date) ∧ (∀ s ∈ lname, l.league_name = s))
      ∧ (∀ l, l ∈ get_leagues db md lname 0 L ↔
          l ∈ db.leagues ∧ (∀ d ∈ md, d ≤ l.last_changed_date) ∧
          (∀ s ∈ lname, l.league_name = s)))
    ∧ ((∀ t ∈ get_teams db md tname lid skip limit,
        (∀ d ∈ md, d ≤ t.last_changed_date) ∧
        (∀ s ∈ tname, t.team_name = s) ∧ (∀ i ∈ lid, t.league_id = i))
      ∧ (∀ t, t ∈ get_teams db md tname lid 0 L ↔
          t ∈ db.teams ∧ (∀ d ∈ md, d ≤ t.last_changed_date) ∧
          (∀ s ∈ tname, t.team_name = s) ∧ (∀ i ∈ lid, t.league_id = i))) := by
  refine ⟨⟨?_, ?_⟩, ⟨?_, ?_⟩, ⟨?_, ?_⟩, ⟨?_, ?_⟩⟩
  · intro p hp
    exact (playerMatches_iff md fn ln p).mp (listQuery_mem _ _ _ _ _ p hp).2
  · intro p
    rw [show get_players db md fn ln 0 L
        = listQuery (fun q => q.player_id) (playerMatches md fn ln) db.players 0 L
      from rfl]
    rw [listQuery_full_mem _ _ _ L hP p, playerMatches_iff]
  · intro f hf
    exact (performanceMatches_iff md f).mp (listQuery_mem _ _ _ _ _ f hf).2
  · intro f
    rw [show get_performances db md 0 L
        = listQuery (fun q => q.performance_id) (performanceMatches md)
            db.performances 0 L
      from rfl]
    rw [listQuery_full_mem _ _ _ L hF f, performanceMatches_iff]
  · intro l hl
    exact (leagueMatches_iff md lname l).mp (listQuery_mem _ _ _ _ _ l hl).2
  · intro l
    rw [show get_leagues db md lname 0 L
        = listQuery (fun q => q.league_id) (leagueMatches md lname) db.leagues 0 L
      from rfl]
    rw [listQuery_full_mem _ _ _ L hLg l, leagueMatches_iff]
  · intro t ht
    exact (teamMatches_iff md tname lid t).mp (listQuery_mem _ _ _ _ _ t ht).2
  · intro t
    rw [show get_teams db md tname lid 0 L
        = listQuery (fun q => q.team_id) (teamMatches md tname lid) db.teams 0 L
      from rfl]
    rw [listQuery_full_mem _ _ _ L hT t, teamMatches_iff]

/-- Witness for C2: player 2009 is returned by the date-filtered query on
the demonstration database, so its last-changed date meets the bound. -/
theorem claim_C2_filters_witness :
    (738950 : Int) ≤ demoBryce.last_changed_date := by
  have h := claim_C2_filters demoDB (some 738950) none none none none none
    0 100 100 (by decide) (by decide) (by decide) (by decide)
  have hmem : demoBryce ∈ get_players demoDB (some 738950) none none 0 100 :=
    (h.1.2 demoBryce).mpr
      (by refine ⟨by decide, ?_, ?_, ?_⟩ <;> simp [demoBryce])
  exact (h.1.1 demoBryce hmem).1 738950 rfl

/-- C3: every page returned by a list operation is sorted by primary
identifier ascending (strictly so when the table's identifiers are
duplicate-free), and is a sublist of the unfiltered, unpaginated result —
so no window duplicates or reorders rows relative to that ordering. -/
theorem claim_C3_ordering (db : DB) (md : Option Int)
    (fn ln lname tname : Option String) (lid : Option Int)
    (skip limit L : Int)
    (hP : db.players.length ≤ L.toNat)
    (hF : db.performances.length ≤ L.toNat)
    (hLg : db.leagues.length ≤ L.toNat)
    (hT : db.teams.length ≤ L.toNat) :
    ((get_players db md fn ln skip limit).Pairwise
        (fun a b => a.player_id ≤ b.player_id)
      ∧ (get_players db md fn ln skip limit).Sublist
          (get_players db none none none 0 L)
      ∧ ((db.players.map (fun p => p.player_id)).Nodup →
          (get_players db md fn ln skip limit).Pairwise
            (fun a b => a.player_id < b.player_id)))
    ∧ ((get_performances db md skip limit).Pairwise
        (fun a b => a.performance_id ≤ b.performance_id)
      ∧ (get_performances db md skip limit).Sublist
          (get_performances db none 0 L)
      ∧ ((db.performances.map (fun f => f.performance_id)).Nodup →
          (get_performances db md skip limit).Pairwise
            (fun a b => a.performance_id < b.performance_id)))
    ∧ ((get_leagues db md lname skip limit).Pairwise
        (fun a b => a.league_id ≤ b.league_id)
      ∧ (get_leagues db md lname skip limit).Sublist
          (get_leagues db none none 0 L)
      ∧ ((db.leagues.map (fun l => l.league_id)).Nodup →
          (get_leagues db md lname skip limit).Pairwise
            (fun a b => a.league_id < b.league_id)))
    ∧ ((get_teams db md tname lid skip limit).Pairwise
        (fun a b => a.team_id ≤ b.team_id)
      ∧ (get_teams db md tname lid skip limit).Sublist
          (get_teams db none none none 0 L)
      ∧ ((db.teams.map (fun t => t.team_id)).Nodup →
          (get_teams db md tname lid skip limit).Pairwise
            (fun a b => a.team_id < b.team_id))) := by
  refine ⟨⟨?_, ?_, ?_⟩, ⟨?_, ?_, ?_⟩, ⟨?_, ?_, ?_⟩, ⟨?_, ?_, ?_⟩⟩
  · exact listQuery_pairwise_le _ _ _ _ _
  · rw [show get_players db none none none 0 L
        = db.players.mergeSort (fun a b => decide (a.player_id ≤ b.player_id))
      from listQuery_all_true_eq _ _ _ L hP (fun p => by simp [playerMatches])]
    exact listQuery_sublist_mergeSort _ _ _ _ _
  · exact fun hnd => listQuery_pairwise_lt _ _ _ _ _ hnd
  · exact listQuery_pairwise_le _ _ _ _ _
  · rw [show get_performances db none 0 L
        = db.performances.mergeSort
            (fun a b => decide (a.performance_id ≤ b.performance_id))
      from listQuery_all_true_eq _ _ _ L hF (fun f => by simp [performanceMatches])]
    exact listQuery_sublist_mergeSort _ _ _ _ _
  · exact fun hnd => listQuery_pairwise_lt _ _ _ _ _ hnd
  · exact listQuery_pairwise_le _ _ _ _ _
  · rw [show get_leagues db none none 0 L
        = db.leagues.mergeSort (fun a b => decide (a.league_id ≤ b.league_id))
      from listQuery_all_true_eq _ _ _ L hLg (fun l => by simp [leagueMatches])]
    exact listQuery_sublist_mergeSort _ _ _ _ _
  · exact fun hnd => listQuery_pairwise_lt _ _ _ _ _ hnd
  · exact listQuery_pairwise_le _ _ _ _ _
  · rw [show get_teams db none none none 0 L
        = db.teams.mergeSort (fun a b => decide (a.team_id ≤ b.team_id))
      from listQuery_all_true_eq _ _ _ L hT (fun t => by simp [teamMatches])]
    exact listQuery_sublist_mergeSort _ _ _ _ _
  · exact fun hnd => listQuery_pairwise_lt _ _ _ _ _ hnd

/-- Witness for C3: a filtered page of the demonstration database is a
sublist of the unfiltered, unpaginated player list. -/
theorem claim_C3_ordering_witness :
    (get_players demoDB (some 738950) none none 0 100).Sublist
      (get_players demoDB none none none 0 10) :=
  (claim_C3_ordering demoDB (some 738950) none none none none none 0 100 10
    (by decide) (by decide) (by decide) (by decide)).1.2.1

/-- C4: the single-entity lookups return either a row carrying the requested
identifier or the explicit not-found signal `none`; the signal is returned
exactly when no row has the identifier, and absence is a normal result, not
a failure. -/
theorem claim_C4_single_lookup (db : DB) (pid lgid : Int) :
    ((∀ p, get_player db pid = some p → p ∈ db.players ∧ p.player_id = pid)
      ∧ (get_player db pid = none ↔ ∀ p ∈ db.players, p.player_id ≠ pid))
    ∧ ((∀ l, get_league db lgid = some l → l ∈ db.leagues ∧ l.league_id = lgid)
      ∧ (get_league db lgid = none ↔ ∀ l ∈ db.leagues, l.league_id ≠ lgid)) := by
  refine ⟨⟨?_, ?_⟩, ⟨?_, ?_⟩⟩
  · intro p hp
    exact ⟨List.mem_of_find?_eq_some hp, by simpa using List.find?_some hp⟩
  · simp only [get_player]
    rw [List.find?_eq_none]
    simp
  · intro l hl
    exact ⟨List.mem_of_find?_eq_some hl, by simpa using List.find?_some hl⟩
  · simp only [get_league]
    rw [List.find?_eq_none]
    simp

/-- Witness for C4: looking up an identifier absent from the demonstration
database yields the not-found signal. -/
theorem claim_C4_single_lookup_witness :
    get_player demoDB 999999 = none :=
  ((claim_C4_single_lookup demoDB 999999 999999).1.2).mpr (by decide)

/-- C5: a not-found report from the query layer makes the single-entity
endpoint raise status 404 with the fixed message, and a found entity is
returned as a normal (status 200) response carrying that entity. -/
theorem claim_C5_not_found_404 (db : DB) (pid lgid : Int) :
    ((get_player db pid = none →
        read_player db pid = Except.error ⟨404, "Player not found"⟩
        ∧ statusOf (read_player db pid) = 404)
      ∧ (∀ p, get_player db pid = some p →
          read_player db pid = Except.ok p
          ∧ statusOf (read_player db pid) = 200))
    ∧ ((get_league db lgid = none →
        read_league db lgid = Except.error ⟨404, "League not found"⟩
        ∧ statusOf (read_league db lgid) = 404)
      ∧ (∀ l, get_league db lgid = some l →
          read_league db lgid = Except.ok l
          ∧ statusOf (read_league db lgid) = 200)) := by
  refine ⟨⟨?_, ?_⟩, ⟨?_, ?_⟩⟩
  · intro h
    simp [read_player, h, statusOf]
  · intro p h
    simp [read_player, h, statusOf]
  · intro h
    simp [read_league, h, statusOf]
  · intro l h
    simp [read_league, h, statusOf]

/-- Witness for C5: requesting unknown player 999999 on the demonstration
database produces the 404 with the fixed message. -/
theorem claim_C5_not_found_404_witness :
    read_player demoDB 999999 = Except.error ⟨404, "Player not found"⟩ :=
  ((claim_C5_not_found_404 demoDB 999999 999999).1.1 (by decide)).1

/-- C6: every count operation equals the length of the corresponding list
operation called with no filters, skip 0 and a limit at least the table
size. -/
theorem claim_C6_counts (db : DB) (L : Int)
    (hP : db.players.length ≤ L.toNat)
    (hT : db.teams.length ≤ L.toNat)
    (hLg : db.leagues.length ≤ L.toNat) :
    get_player_count db = (get_players db none none none 0 L).length
    ∧ get_team_count db = (get_teams db none none none 0 L).length
    ∧ get_league_count db = (get_leagues db none none 0 L).length := by
  refine ⟨?_, ?_, ?_⟩
  · rw [show get_players db none none none 0 L
        = db.players.mergeSort (fun a b => decide (a.player_id ≤ b.player_id))
      from listQuery_all_true_eq _ _ _ L hP (fun p => by simp [playerMatches])]
    exact ((List.mergeSort_perm _ _).length_eq).symm
  · rw [show get_teams db none none none 0 L
        = db.teams.mergeSort (fun a b => decide (a.team_id ≤ b.team_id))
      from listQuery_all_true_eq _ _ _ L hT (fun t => by simp [teamMatches])]
    exact ((List.mergeSort_perm _ _).length_eq).symm
  · rw [show get_leagues db none none 0 L
        = db.leagues.mergeSort (fun a b => decide (a.league_id ≤ b.league_id))
      from listQuery_all_true_eq _ _ _ L hLg (fun l => by simp [leagueMatches])]
    exact ((List.mergeSort_perm _ _).length_eq).symm

/-- Witness for C6: the player count of the demonstration database equals
the length of the unfiltered, unpaginated player list. -/
theorem claim_C6_counts_witness :
    get_player_count demoDB = (get_players demoDB none none none 0 10).length :=
  (claim_C6_counts demoDB 10 (by decide) (by decide) (by decide)).1

/-- C7: handling any request leaves the database state unchanged, and a
second call to the same operation with the same parameters against the
resulting state returns the same outcome — every endpoint is read-only,
idempotent and deterministic. -/
theorem claim_C7_read_only (req : Request) (db : DB) :
    (handle req db).2 = db
    ∧ handle req ((handle req db).2) = handle req db := by
  cases req <;> exact ⟨rfl, rfl⟩

/-- C8: the `get_db` dependency acquires exactly one fresh session before
the handler runs, hands the handler exactly that session, and closes it
when the request completes — the set of open sessions is restored whether
the handler returns normally or raises, so no session outlives its
request. -/
theorem claim_C8_session_lifecycle (handler : Nat → Except HTTPException α)
    (st : SessionState) :
    (get_db handler st).2.open_sessions = st.open_sessions
    ∧ (get_db handler st).2.next_id = st.next_id + 1
    ∧ (get_db handler st).1 = handler st.next_id := by
  refine ⟨?_, rfl, rfl⟩
  simp [get_db, SessionLocal, closeSession]

/-- C9: on any database satisfying the fixture fact that player 2009 is the
only row with first name Bryce and last name Young, `get_players` with those
name filters and the default skip 0 and limit 100 returns exactly that one
row, whose identifier is 2009. -/
theorem claim_C9_bryce_young (db : DB) (p : Player)
    (hfix : db.players.filter
        (fun q => q.first_name == "Bryce" && q.last_name == "Young") = [p])
    (hid : p.player_id = 2009) :
    get_players db none (some "Bryce") (some "Young") 0 100 = [p]
    ∧ p.player_id = 2009 := by
  refine ⟨?_, hid⟩
  simp only [get_players, listQuery]
  rw [List.filter_congr (fun q _ => show playerMatches none (some "Bryce")
      (some "Young") q = (q.first_name == "Bryce" && q.last_name == "Young")
    from by simp [playerMatches])]
  have hperm : ((db.players.mergeSort
      (fun a b => decide (a.player_id ≤ b.player_id))).filter
        (fun q => q.first_name == "Bryce" && q.last_name == "Young")).Perm [p] := by
    rw [← hfix]
    exact (List.mergeSort_perm _ _).filter _
  rw [List.perm_singleton.mp hperm]
  simp

/-- Witness for C9: the fixture fact evaluated on the demonstration
database, whose only Bryce Young is player 2009. -/
theorem claim_C9_bryce_young_witness :
    get_players demoDB none (some "Bryce") (some "Young") 0 100 = [demoBryce] :=
  (claim_C9_bryce_young demoDB demoBryce (by decide) rfl).1

/-- C10: the HTTP layer declares `skip` and `limit` without range
validators, so validation accepts every integer — negative values
included — and each list endpoint passes the supplied values to its
query-layer function unchanged; no non-negativity or positivity
precondition is enforced at the public interface. -/
theorem claim_C10_no_range_validation (x : Int) (db : DB) (skip limit : Int)
    (md : Option Int) (fn ln lname tname : Option String) (lid : Option Int) :
    skipQuery.validate x = Except.ok x
    ∧ limitQuery.validate x = Except.ok x
    ∧ read_players db skip limit md fn ln = get_players db md fn ln skip limit
    ∧ read_performances db skip limit md = get_performances db md skip limit
    ∧ read_leagues db skip limit md lname = get_leagues db md lname skip limit
    ∧ read_teams db skip limit md tname lid
        = get_teams db md tname lid skip limit := by
  refine ⟨?_, ?_, rfl, rfl, rfl, rfl⟩
  · simp [QueryInt.validate, skipQuery]
  · simp [QueryInt.validate, limitQuery]
